import Mathlib

/-!
Verification development for the sofa CouchDB client library.

The Rust sources (src/client.rs, src/types/system.rs, src/types/index.rs,
src/types/design.rs) are shallowly embedded below.  JSON values and the
serde-derived encoders/decoders of the resource model types are modelled
explicitly; the reqwest HTTP transport is modelled as an oracle mapping
requests to responses, and each request-issuing operation additionally
returns the trace of requests it issued.
-/

/-! ## JSON values (model of serde_json) -/

/-- A JSON value.  Numbers are restricted to naturals, which covers every
numeric field of the embedded types (only `total_rows : u32` is numeric). -/
inductive Json where
  | null
  | bool (b : Bool)
  | str (s : String)
  | num (n : Nat)
  | arr (elems : List Json)
  | obj (fields : List (String × Json))

/-- First binding of a key in a JSON object (serde rejects duplicate keys,
so objects are assumed duplicate-free and the first binding is the value). -/
def Json.lookupField (fs : List (String × Json)) (k : String) : Option Json :=
  match fs with
  | [] => none
  | (k2, v) :: rest => if k2 = k then some v else Json.lookupField rest k

def Json.asBool : Json → Option Bool
  | .bool b => some b
  | _ => none

def Json.asStr : Json → Option String
  | .str s => some s
  | _ => none

def Json.asNat : Json → Option Nat
  | .num n => some n
  | _ => none

/-- Decoder for an `Option` field as serde derives it: a missing field and an
explicit `null` both decode to `none`; a present value must decode. -/
def decodeOpt (fs : List (String × Json)) (k : String) (dec : Json → Option α) :
    Option (Option α) :=
  match Json.lookupField fs k with
  | none => some none
  | some Json.null => some none
  | some v =>
    match dec v with
    | some a => some (some a)
    | none => none

/-- Decoder for a required field: the field must be present and decode. -/
def decodeField (fs : List (String × Json)) (k : String) (dec : Json → Option α) :
    Option α :=
  match Json.lookupField fs k with
  | some v => dec v
  | none => none

/-- serde serializes `None` as `null` (no skip_serializing_if attributes are
present in the sources). -/
def optJson (f : α → Json) : Option α → Json
  | none => Json.null
  | some a => f a

/-- Element-wise decoding of a JSON array body (serde sequence decoding). -/
def decodeList (dec : Json → Option α) : List Json → Option (List α)
  | [] => some []
  | x :: xs =>
    match dec x, decodeList dec xs with
    | some a, some rest => some (a :: rest)
    | _, _ => none

/-! ## Resource model (src/types/system.rs, index.rs, design.rs) -/

/-- src/types/system.rs: `CouchVendor { name, version }`. -/
structure CouchVendor where
  name : String
  version : String

def CouchVendor.toJson (v : CouchVendor) : Json :=
  .obj [("name", .str v.name), ("version", .str v.version)]

def CouchVendor.fromJson : Json → Option CouchVendor
  | .obj fs =>
    match decodeField fs "name" Json.asStr with
    | none => none
    | some nm =>
      match decodeField fs "version" Json.asStr with
      | none => none
      | some ver => some ⟨nm, ver⟩
  | _ => none

/-- src/types/system.rs: `CouchStatus { couchdb, uuid, version, vendor }`. -/
structure CouchStatus where
  couchdb : String
  uuid : String
  version : String
  vendor : CouchVendor

def CouchStatus.toJson (v : CouchStatus) : Json :=
  .obj [("couchdb", .str v.couchdb), ("uuid", .str v.uuid),
        ("version", .str v.version), ("vendor", CouchVendor.toJson v.vendor)]

def CouchStatus.fromJson : Json → Option CouchStatus
  | .obj fs =>
    match decodeField fs "couchdb" Json.asStr with
    | none => none
    | some c =>
      match decodeField fs "uuid" Json.asStr with
      | none => none
      | some u =>
        match decodeField fs "version" Json.asStr with
        | none => none
        | some ver =>
          match decodeField fs "vendor" CouchVendor.fromJson with
          | none => none
          | some vend => some ⟨c, u, ver, vend⟩
  | _ => none

/-- src/types/system.rs: `CouchResponse { ok: Option<bool>, error: Option<String>,
reason: Option<String> }` — the generic operation envelope. -/
structure CouchResponse where
  ok : Option Bool
  error : Option String
  reason : Option String

def CouchResponse.toJson (v : CouchResponse) : Json :=
  .obj [("ok", optJson Json.bool v.ok), ("error", optJson Json.str v.error),
        ("reason", optJson Json.str v.reason)]

def CouchResponse.fromJson : Json → Option CouchResponse
  | .obj fs =>
    match decodeOpt fs "ok" Json.asBool with
    | none => none
    | some o =>
      match decodeOpt fs "error" Json.asStr with
      | none => none
      | some e =>
        match decodeOpt fs "reason" Json.asStr with
        | none => none
        | some r => some ⟨o, e, r⟩
  | _ => none

/-- Modelled from the spec: src lacks find.rs, so `SortSpec` is not available;
the spec describes index fields only as an ordered sequence of sort specs, so a
sort spec is modelled as its string form. -/
def SortSpec : Type := String

def SortSpec.toJson (s : SortSpec) : Json := Json.str s

def SortSpec.fromJson : Json → Option SortSpec := Json.asStr

/-- Modelled from the spec: src lacks document.rs, so `DocumentId` is not
available; the spec describes it as an optional id, modelled as a string. -/
def DocumentId : Type := String

/-- src/types/index.rs: `IndexFields { fields: Vec<SortSpec> }`. -/
structure IndexFields where
  fields : List SortSpec

/-- src/types/index.rs: `IndexFields::new`. -/
def IndexFields.new (fields : List SortSpec) : IndexFields := ⟨fields⟩

def IndexFields.toJson (v : IndexFields) : Json :=
  .obj [("fields", .arr (v.fields.map SortSpec.toJson))]

def decodeSortList : Json → Option (List SortSpec)
  | .arr xs => decodeList SortSpec.fromJson xs
  | _ => none

def IndexFields.fromJson : Json → Option IndexFields
  | .obj fs => Option.map (fun l => ⟨l⟩) (decodeField fs "fields" decodeSortList)
  | _ => none

/-- src/types/index.rs: `Index { ddoc: Option<DocumentId>, name, index_type
(serialized as "type"), def: IndexFields }`.  The Rust field `def` is a Lean
keyword and is embedded as `defn`. -/
structure Index where
  ddoc : Option DocumentId
  name : String
  index_type : String
  defn : IndexFields

def Index.toJson (v : Index) : Json :=
  .obj [("ddoc", optJson Json.str v.ddoc), ("name", .str v.name),
        ("type", .str v.index_type), ("def", IndexFields.toJson v.defn)]

def Index.fromJson : Json → Option Index
  | .obj fs =>
    Option.bind (decodeOpt fs "ddoc" Json.asStr) (fun dd =>
    Option.bind (decodeField fs "name" Json.asStr) (fun nm =>
    Option.bind (decodeField fs "type" Json.asStr) (fun ty =>
    Option.map (fun df => ⟨dd, nm, ty, df⟩)
      (decodeField fs "def" IndexFields.fromJson))))
  | _ => none

/-- src/types/index.rs: `IndexCreated { result, id, name, error, reason }`,
all optional strings. -/
structure IndexCreated where
  result : Option String
  id : Option String
  name : Option String
  error : Option String
  reason : Option String

def IndexCreated.toJson (v : IndexCreated) : Json :=
  .obj [("result", optJson Json.str v.result), ("id", optJson Json.str v.id),
        ("name", optJson Json.str v.name), ("error", optJson Json.str v.error),
        ("reason", optJson Json.str v.reason)]

def IndexCreated.fromJson : Json → Option IndexCreated
  | .obj fs =>
    match decodeOpt fs "result" Json.asStr with
    | none => none
    | some r =>
      match decodeOpt fs "id" Json.asStr with
      | none => none
      | some i =>
        match decodeOpt fs "name" Json.asStr with
        | none => none
        | some n =>
          match decodeOpt fs "error" Json.asStr with
          | none => none
          | some e =>
            match decodeOpt fs "reason" Json.asStr with
            | none => none
            | some re => some ⟨r, i, n, e, re⟩
  | _ => none

def decodeIndexList : Json → Option (List Index)
  | .arr xs => decodeList Index.fromJson xs
  | _ => none

/-- src/types/index.rs: `DatabaseIndexList { total_rows: u32, indexes: Vec<Index> }`. -/
structure DatabaseIndexList where
  total_rows : Nat
  indexes : List Index

def DatabaseIndexList.toJson (v : DatabaseIndexList) : Json :=
  .obj [("total_rows", .num v.total_rows), ("indexes", .arr (v.indexes.map Index.toJson))]

def DatabaseIndexList.fromJson : Json → Option DatabaseIndexList
  | .obj fs =>
    Option.bind (decodeField fs "total_rows" Json.asNat) (fun t =>
    Option.map (fun ix => ⟨t, ix⟩) (decodeField fs "indexes" decodeIndexList))
  | _ => none

/-- src/types/design.rs: `DesignCreated { result, id, name, error, reason }`,
all optional strings. -/
structure DesignCreated where
  result : Option String
  id : Option String
  name : Option String
  error : Option String
  reason : Option String

def DesignCreated.toJson (v : DesignCreated) : Json :=
  .obj [("result", optJson Json.str v.result), ("id", optJson Json.str v.id),
        ("name", optJson Json.str v.name), ("error", optJson Json.str v.error),
        ("reason", optJson Json.str v.reason)]

def DesignCreated.fromJson : Json → Option DesignCreated
  | .obj fs =>
    match decodeOpt fs "result" Json.asStr with
    | none => none
    | some r =>
      match decodeOpt fs "id" Json.asStr with
      | none => none
      | some i =>
        match decodeOpt fs "name" Json.asStr with
        | none => none
        | some n =>
          match decodeOpt fs "error" Json.asStr with
          | none => none
          | some e =>
            match decodeOpt fs "reason" Json.asStr with
            | none => none
            | some re => some ⟨r, i, n, e, re⟩
  | _ => none

/-! ## URL model (model of the rust-url crate as used by client.rs)

`Client::create_path` calls `Url::parse` on the configured base URI and
`Url::join` on the request path.  The model below covers the simple
`scheme://host/path?query` shape exercised by this client: parsing validates
the scheme and a nonempty host and normalizes an empty path to "/", and
joining follows RFC 3986 relative resolution for path references (a
leading-slash reference replaces the base path; otherwise the reference is
appended to the base path's directory). -/

/-- Split a character list at the first occurrence of `c`; `none` when `c`
does not occur. -/
def splitAtFirst (cs : List Char) (c : Char) : Option (List Char × List Char) :=
  match cs with
  | [] => none
  | x :: xs =>
    if x = c then some ([], xs)
    else
      match splitAtFirst xs c with
      | some (a, b) => some (x :: a, b)
      | none => none

def isSchemeChar (c : Char) : Bool :=
  c.isAlphanum || c == '+' || c == '-' || c == '.'

structure Url where
  scheme : String
  host : String
  path : String
  query : Option String

def Url.parse (s : String) : Option Url :=
  match splitAtFirst s.data ':' with
  | none => none
  | some (schemeCs, rest) =>
    match schemeCs with
    | [] => none
    | c0 :: _ =>
      if c0.isAlpha && schemeCs.all isSchemeChar then
        match rest with
        | '/' :: '/' :: rest2 =>
          let hostCs := rest2.takeWhile (fun c => c != '/' && c != '?')
          let after := rest2.drop hostCs.length
          if hostCs = [] then none
          else
            let pq : List Char × Option String :=
              match splitAtFirst after '?' with
              | some (a, b) => (a, some (String.mk b))
              | none => (after, none)
            let pathCs := if pq.1 = [] then ['/'] else pq.1
            some ⟨String.mk schemeCs, String.mk hostCs, String.mk pathCs, pq.2⟩
        | _ => none
      else none

/-- The directory of a path: everything up to and including the last slash. -/
def dirOfPath (p : List Char) : List Char :=
  (p.reverse.dropWhile (fun c => c != '/')).reverse

/-- RFC 3986 relative resolution of a path(?query) reference against a base,
as rust-url's `Url::join` performs it for the references this client builds. -/
def Url.join (u : Url) (ref : String) : Url :=
  let pq := splitAtFirst ref.data '?'
  let refPath := match pq with | some (a, _) => a | none => ref.data
  let refQuery := match pq with | some (_, b) => some (String.mk b) | none => none
  if refPath = [] then
    { u with query := match refQuery with | some q => some q | none => u.query }
  else if refPath.head? = some '/' then
    { u with path := String.mk refPath, query := refQuery }
  else
    { u with path := String.mk (dirOfPath u.path.data ++ refPath), query := refQuery }

/-- Serialization of a URL back to a string (`Url::into_string`). -/
def Url.render (u : Url) : String :=
  match u.query with
  | none => u.scheme ++ "://" ++ u.host ++ u.path
  | some q => u.scheme ++ "://" ++ u.host ++ u.path ++ "?" ++ q

/-! ## Errors, transport and the client (src/client.rs) -/

/-- The error cases surfaced through `failure::Error` by client.rs.
`sofa` is modelled from the spec: src lacks error.rs, where `SofaError`
wraps the server-reported message string (spec: `ServerError(message)`). -/
inductive Err where
  | sofa (msg : String)
  | urlParse
  | transport
  | decode
deriving DecidableEq

/-- Observable configuration of a built reqwest client: the gzip flag and
timeout it was built from (`reqwest::Client::builder().gzip(..).timeout(..)`). -/
structure Transport where
  gzip : Bool
  timeout : Nat
deriving DecidableEq

/-- The reqwest client builder, as an oracle: building from a gzip flag and a
timeout either yields a transport or fails (e.g. TLS backend failure). -/
def Builder : Type := Bool → Nat → Except Err Transport

/-- src/client.rs: `Client`.  The source names `_client`, `_gzip`, `_timeout`,
`uri` and `db_prefix` (the last embedded as `dbPrefix`); `_timeout` is a `u8`
in the source, embedded as a `Nat` (no arithmetic is performed on it). -/
structure Client where
  _client : Transport
  dbs : List String
  _gzip : Bool
  _timeout : Nat
  uri : String
  dbPrefix : String

/-- src/client.rs: `Client::new` — builds a reqwest client with gzip(true) and
a 4-second timeout and stores the uri verbatim; the only failure is the
builder's. -/
def Client.new (builder : Builder) (uri : String) : Except Err Client :=
  match builder true 4 with
  | .error e => .error e
  | .ok t =>
    .ok { _client := t, uri := uri, _gzip := true, _timeout := 4,
          dbs := [], dbPrefix := "" }

/-- src/client.rs: `Client::create_client` — rebuilds the transport from the
current gzip flag and timeout. -/
def Client.create_client (builder : Builder) (c : Client) : Except Err Transport :=
  builder c._gzip c._timeout

/-- src/client.rs: `Client::set_uri` — stores the value, nothing else. -/
def Client.set_uri (c : Client) (uri : String) : Client :=
  { c with uri := uri }

/-- src/client.rs: `Client::set_prefix` (embedded as `setPrefix`) — stores the
value into `db_prefix`, nothing else. -/
def Client.setPrefix (c : Client) (p : String) : Client :=
  { c with dbPrefix := p }

/-- src/client.rs: `Client::gzip` — sets `_gzip`, then rebuilds `_client`
via `create_client`. -/
def Client.gzip (builder : Builder) (c : Client) (enabled : Bool) : Except Err Client :=
  let c2 := { c with _gzip := enabled }
  match Client.create_client builder c2 with
  | .error e => .error e
  | .ok t => .ok { c2 with _client := t }

/-- src/client.rs: `Client::timeout` — sets `_timeout`, then rebuilds
`_client` via `create_client`. -/
def Client.timeout (builder : Builder) (c : Client) (secs : Nat) : Except Err Client :=
  let c2 := { c with _timeout := secs }
  match Client.create_client builder c2 with
  | .error e => .error e
  | .ok t => .ok { c2 with _client := t }

/-- src/client.rs: `Client::build_dbname` — prefix concatenated with the name. -/
def Client.build_dbname (c : Client) (dbname : String) : String :=
  c.dbPrefix ++ dbname

/-- src/client.rs: `Client::create_path` — parse the base uri, join the path,
append query pairs when given (the source iterates a HashMap, here a list of
pairs in iteration order), render back to a string. -/
def Client.create_path (c : Client) (path : String)
    (args : Option (List (String × String))) : Except Err String :=
  match Url.parse c.uri with
  | none => .error .urlParse
  | some u =>
    let u2 := Url.join u path
    let u3 :=
      match args with
      | none => u2
      | some pairs =>
        let pairsStr := String.intercalate "&" (pairs.map (fun kv => kv.1 ++ "=" ++ kv.2))
        { u2 with query :=
            match u2.query with
            | none => some pairsStr
            | some q => some (q ++ "&" ++ pairsStr) }
    .ok (Url.render u3)

/-! ## HTTP oracle, request builders and the lifecycle operations -/

inductive Method where
  | get
  | put
  | post
  | head
  | delete
deriving DecidableEq

structure Request where
  method : Method
  uri : String
deriving DecidableEq

structure Response where
  status : Nat
  body : Json

/-- The server (and transport), as an oracle mapping each request to the
response observed for it. -/
def Server : Type := Request → Response

def isPut (r : Request) : Bool :=
  match r.method with
  | .put => true
  | _ => false

/-- A built but unsent reqwest `RequestBuilder`: method, resolved uri, the
Referer header (set to the resolved uri by `req`), the JSON Content-Type
header flag, and an optional body. -/
structure RequestBuilder where
  method : Method
  uri : String
  referer : Option String
  contentTypeJson : Bool
  body : Option String

/-- src/client.rs: `Client::req` — create_path, then a request with Referer
set to the resolved uri and a JSON Content-Type header. -/
def Client.req (c : Client) (method : Method) (path : String)
    (opts : Option (List (String × String))) : Except Err RequestBuilder :=
  match Client.create_path c path opts with
  | .error e => .error e
  | .ok uri =>
    .ok { method := method, uri := uri, referer := some uri,
          contentTypeJson := true, body := none }

/-- src/client.rs: `Client::get`. -/
def Client.get (c : Client) (path : String)
    (args : Option (List (String × String))) : Except Err RequestBuilder :=
  Client.req c Method.get path args

/-- src/client.rs: `Client::post` — `req` plus a body. -/
def Client.post (c : Client) (path : String) (body : String) : Except Err RequestBuilder :=
  match Client.req c Method.post path none with
  | .error e => .error e
  | .ok rb => .ok { rb with body := some body }

/-- src/client.rs: `Client::put` — `req` plus a body. -/
def Client.put (c : Client) (path : String) (body : String) : Except Err RequestBuilder :=
  match Client.req c Method.put path none with
  | .error e => .error e
  | .ok rb => .ok { rb with body := some body }

/-- src/client.rs: `Client::head`. -/
def Client.head (c : Client) (path : String)
    (args : Option (List (String × String))) : Except Err RequestBuilder :=
  Client.req c Method.head path args

/-- src/client.rs: `Client::delete`. -/
def Client.delete (c : Client) (path : String)
    (args : Option (List (String × String))) : Except Err RequestBuilder :=
  Client.req c Method.delete path args

def decodeStringList : Json → Option (List String)
  | .arr xs => decodeList Json.asStr xs
  | _ => none

/-- src/client.rs: `Client::list_dbs` — GET /_all_dbs via `get`, send, decode
the body as a JSON array of strings.  Returns the result together with the
trace of requests issued. -/
def Client.list_dbs (c : Client) (srv : Server) :
    Except Err (List String) × List Request :=
  match Client.get c "/_all_dbs" none with
  | .error e => (.error e, [])
  | .ok rb =>
    let resp := srv ⟨rb.method, rb.uri⟩
    let res : Except Err (List String) :=
      match decodeStringList resp.body with
      | some xs => .ok xs
      | none => .error .decode
    (res, [⟨rb.method, rb.uri⟩])

/-- Modelled from the spec: src lacks database.rs; the spec's Database Handle
is `{ name, owning connection }`, created via `Database::new(name, client)`. -/
structure Database where
  name : String
  client : Client

def Database.new (name : String) (client : Client) : Database :=
  ⟨name, client⟩

/-- src/client.rs: `Client::make_db` — PUT the resource path of the effective
name, decode a `CouchResponse`; `ok == Some(true)` yields the handle,
otherwise the error is `SofaError(s.error.unwrap_or("unspecified error"))`. -/
def Client.make_db (c : Client) (srv : Server) (dbname : String) :
    Except Err Database × List Request :=
  let name := Client.build_dbname c dbname
  let d := Database.new name c
  match Client.create_path c name none with
  | .error e => (.error e, [])
  | .ok path =>
    let resp := srv ⟨Method.put, path⟩
    let res : Except Err Database :=
      match CouchResponse.fromJson resp.body with
      | none => .error .decode
      | some s =>
        match s.ok with
        | some true => .ok d
        | _ => .error (.sofa (s.error.getD "unspecified error"))
    (res, [⟨Method.put, path⟩])

/-- src/client.rs: `Client::db` — HEAD the resource path of the effective
name; status 200 yields the handle, any other status falls through to
`make_db`. -/
def Client.db (c : Client) (srv : Server) (dbname : String) :
    Except Err Database × List Request :=
  let name := Client.build_dbname c dbname
  let d := Database.new name c
  match Client.create_path c name none with
  | .error e => (.error e, [])
  | .ok path =>
    if (srv ⟨Method.head, path⟩).status = 200 then
      (.ok d, [⟨Method.head, path⟩])
    else
      ((Client.make_db c srv dbname).1,
        ⟨Method.head, path⟩ :: (Client.make_db c srv dbname).2)

/-- src/client.rs: `Client::destroy_db` — DELETE the resource path, decode a
`CouchResponse`, return `s.ok.unwrap_or(false)`; the HTTP status is never
consulted. -/
def Client.destroy_db (c : Client) (srv : Server) (dbname : String) :
    Except Err Bool × List Request :=
  match Client.create_path c (Client.build_dbname c dbname) none with
  | .error e => (.error e, [])
  | .ok path =>
    let resp := srv ⟨Method.delete, path⟩
    let res : Except Err Bool :=
      match CouchResponse.fromJson resp.body with
      | none => .error .decode
      | some s => .ok (s.ok.getD false)
    (res, [⟨Method.delete, path⟩])

/-- src/client.rs: `Client::check_status` — GET the raw base uri (no
create_path), decode a `CouchStatus`. -/
def Client.check_status (c : Client) (srv : Server) :
    Except Err CouchStatus × List Request :=
  let resp := srv ⟨Method.get, c.uri⟩
  let res : Except Err CouchStatus :=
    match CouchStatus.fromJson resp.body with
    | some st => .ok st
    | none => .error .decode
  (res, [⟨Method.get, c.uri⟩])

/-! ## Uniform view of the request-issuing operations

Every method from `list_dbs` through `delete` takes the client by shared
reference (`&self`) and contains no interior mutability, so the embedding
threads the client state through each operation explicitly and returns it
at every exit point. -/

inductive ReqOp where
  | listDbs
  | openDb (name : String)
  | makeDb (name : String)
  | destroyDb (name : String)
  | checkStatus
  | reqOp (m : Method) (path : String) (opts : Option (List (String × String)))
  | getOp (path : String) (args : Option (List (String × String)))
  | postOp (path : String) (body : String)
  | putOp (path : String) (body : String)
  | headOp (path : String) (args : Option (List (String × String)))
  | deleteOp (path : String) (args : Option (List (String × String)))

inductive Answer where
  | names (r : Except Err (List String))
  | handle (r : Except Err Database)
  | flag (r : Except Err Bool)
  | status (r : Except Err CouchStatus)
  | request (r : Except Err RequestBuilder)

/-- Dispatch a request-issuing or request-building operation, returning its
answer together with the client state after the call. -/
def Client.runReq (c : Client) (srv : Server) (op : ReqOp) : Answer × Client :=
  match op with
  | .listDbs => (.names (Client.list_dbs c srv).1, c)
  | .openDb n => (.handle (Client.db c srv n).1, c)
  | .makeDb n => (.handle (Client.make_db c srv n).1, c)
  | .destroyDb n => (.flag (Client.destroy_db c srv n).1, c)
  | .checkStatus => (.status (Client.check_status c srv).1, c)
  | .reqOp m p o => (.request (Client.req c m p o), c)
  | .getOp p a => (.request (Client.get c p a), c)
  | .postOp p b => (.request (Client.post c p b), c)
  | .putOp p b => (.request (Client.put c p b), c)
  | .headOp p a => (.request (Client.head c p a), c)
  | .deleteOp p a => (.request (Client.delete c p a), c)

/-! ## Concrete instances used by the witnesses and counterexamples -/

/-- A builder that always succeeds, recording the flag and timeout it was
given. -/
def okBuilder : Builder := fun g t => .ok ⟨g, t⟩

/-- A concrete client with base uri "http://h/" and no prefix. -/
def c0 : Client :=
  { _client := ⟨true, 4⟩, dbs := [], _gzip := true, _timeout := 4,
    uri := "http://h/", dbPrefix := "" }

/-- c0 with base uri "http://h/x" (no trailing slash). -/
def cA : Client := { c0 with uri := "http://h/x" }

/-- c0 with base uri "http://h/x/" (trailing slash). -/
def cB : Client := { c0 with uri := "http://h/x/" }

/-- A server answering every request with the given status and body. -/
def constSrv (st : Nat) (b : Json) : Server := fun _ => ⟨st, b⟩

/-- A client holding an unparseable base uri (stored verbatim by `new`). -/
def cBad : Client :=
  { _client := ⟨true, 4⟩, dbs := [], _gzip := true, _timeout := 4,
    uri := "not a uri", dbPrefix := "" }

/-! ## Round-trip lemmas for the resource model -/

theorem decodeList_map (dec : Json → Option α) (f : α → Json)
    (h : ∀ a, dec (f a) = some a) :
    ∀ xs : List α, decodeList dec (xs.map f) = some xs := by
  intro xs
  induction xs with
  | nil => rfl
  | cons x rest ih => simp [decodeList, h, ih]

theorem rt_CouchVendor (v : CouchVendor) :
    CouchVendor.fromJson (CouchVendor.toJson v) = some v := rfl

theorem rt_CouchStatus (v : CouchStatus) :
    CouchStatus.fromJson (CouchStatus.toJson v) = some v := rfl

theorem rt_CouchResponse (v : CouchResponse) :
    CouchResponse.fromJson (CouchResponse.toJson v) = some v := by
  obtain ⟨o, e, r⟩ := v
  cases o <;> cases e <;> cases r <;> rfl

theorem rt_SortSpec (s : SortSpec) :
    SortSpec.fromJson (SortSpec.toJson s) = some s := rfl

theorem rt_IndexFields (v : IndexFields) :
    IndexFields.fromJson (IndexFields.toJson v) = some v := by
  obtain ⟨fs⟩ := v
  calc IndexFields.fromJson (IndexFields.toJson ⟨fs⟩)
      = Option.map (fun l => ⟨l⟩) (decodeList SortSpec.fromJson (fs.map SortSpec.toJson)) := rfl
    _ = some ⟨fs⟩ := by rw [decodeList_map SortSpec.fromJson SortSpec.toJson rt_SortSpec]; rfl

theorem rt_Index (v : Index) :
    Index.fromJson (Index.toJson v) = some v := by
  obtain ⟨dd, nm, ty, df⟩ := v
  cases dd with
  | none =>
    calc Index.fromJson (Index.toJson ⟨none, nm, ty, df⟩)
        = Option.map (fun x => ⟨none, nm, ty, x⟩)
            (IndexFields.fromJson (IndexFields.toJson df)) := rfl
      _ = some ⟨none, nm, ty, df⟩ := by rw [rt_IndexFields]; rfl
  | some d =>
    calc Index.fromJson (Index.toJson ⟨some d, nm, ty, df⟩)
        = Option.map (fun x => ⟨some d, nm, ty, x⟩)
            (IndexFields.fromJson (IndexFields.toJson df)) := rfl
      _ = some ⟨some d, nm, ty, df⟩ := by rw [rt_IndexFields]; rfl

theorem rt_IndexCreated (v : IndexCreated) :
    IndexCreated.fromJson (IndexCreated.toJson v) = some v := by
  obtain ⟨r, i, n, e, re⟩ := v
  cases r <;> cases i <;> cases n <;> cases e <;> cases re <;> rfl

theorem rt_DatabaseIndexList (v : DatabaseIndexList) :
    DatabaseIndexList.fromJson (DatabaseIndexList.toJson v) = some v := by
  obtain ⟨t, ix⟩ := v
  calc DatabaseIndexList.fromJson (DatabaseIndexList.toJson ⟨t, ix⟩)
      = Option.map (fun l => ⟨t, l⟩) (decodeList Index.fromJson (ix.map Index.toJson)) := rfl
    _ = some ⟨t, ix⟩ := by rw [decodeList_map Index.fromJson Index.toJson rt_Index]; rfl

theorem rt_DesignCreated (v : DesignCreated) :
    DesignCreated.fromJson (DesignCreated.toJson v) = some v := by
  obtain ⟨r, i, n, e, re⟩ := v
  cases r <;> cases i <;> cases n <;> cases e <;> cases re <;> rfl

/-! ## Helper lemmas about the operations -/

/-- `make_db` issues exactly the single PUT request to the resolved path. -/
theorem make_db_trace (c : Client) (srv : Server) (n p : String)
    (hp : Client.create_path c (Client.build_dbname c n) none = .ok p) :
    (Client.make_db c srv n).2 = [⟨Method.put, p⟩] := by
  simp only [Client.make_db, hp]

/-- A path ending in a slash is its own directory. -/
theorem dirOfPath_append_slash (l : List Char) :
    dirOfPath (l ++ ['/']) = l ++ ['/'] := by
  simp [dirOfPath, List.dropWhile_cons, show (('/' : Char) != '/') = false from rfl]

/-! ## Claim theorems -/

/-- Claim C1: for every database name, `Client::db` issues a HEAD request to
the resource path of the effective name; if the status is 200 it returns the
Database Handle without issuing any PUT, and for any other status it falls
through to `make_db`, issuing exactly one PUT afterward. -/
theorem claim1_open_database (c : Client) (srv : Server) (n p : String)
    (hp : Client.create_path c (Client.build_dbname c n) none = .ok p) :
    (Client.db c srv n).2.head? = some ⟨Method.head, p⟩ ∧
    ((srv ⟨Method.head, p⟩).status = 200 →
      (Client.db c srv n).1 = .ok (Database.new (Client.build_dbname c n) c) ∧
      (Client.db c srv n).2.filter isPut = []) ∧
    ((srv ⟨Method.head, p⟩).status ≠ 200 →
      (Client.db c srv n).1 = (Client.make_db c srv n).1 ∧
      (Client.db c srv n).2.filter isPut = [⟨Method.put, p⟩]) := by
  have hm := make_db_trace c srv n p hp
  by_cases h200 : (srv ⟨Method.head, p⟩).status = 200
  · refine ⟨?_, fun _ => ⟨?_, ?_⟩, fun hne => absurd h200 hne⟩ <;>
      simp [Client.db, hp, h200, isPut, List.filter]
  · refine ⟨?_, fun heq => absurd heq h200, fun _ => ⟨?_, ?_⟩⟩ <;>
      simp [Client.db, hp, h200, hm, isPut, List.filter]

/-- Witness for claim C1 at a concrete client and a HEAD→200 server. -/
theorem claim1_open_database_witness :
    Client.create_path c0 (Client.build_dbname c0 "x") none = .ok "http://h/x" ∧
    ((Client.db c0 (constSrv 200 (Json.obj [])) "x").1
        = .ok (Database.new (Client.build_dbname c0 "x") c0) ∧
      (Client.db c0 (constSrv 200 (Json.obj [])) "x").2.filter isPut = []) :=
  ⟨rfl, (claim1_open_database c0 (constSrv 200 (Json.obj [])) "x" "http://h/x" rfl).2.1 rfl⟩

/-- Counterexample to claim C2 as stated: with the simulated response
{"ok": false, "reason": "file_exists"} the code reports "unspecified error",
not "file_exists" — `make_db` reads the envelope's `error` field, never
`reason`. -/
theorem claim2_counterexample :
    (Client.make_db c0
        (constSrv 412 (Json.obj [("ok", Json.bool false), ("reason", Json.str "file_exists")]))
        "x").1
      = .error (.sofa "unspecified error") ∧
    Err.sofa "unspecified error" ≠ Err.sofa "file_exists" :=
  ⟨rfl, by decide⟩

/-- Claim C2 (amended): when `make_db` decodes an envelope whose ok field is
not `Some(true)`, it fails with `SofaError` carrying the server-supplied
`error` field as the message (the `reason` field is ignored), defaulting to
"unspecified error" whenever `error` is absent — even when `reason` is
present. -/
theorem claim2_make_db_error_field (c : Client) (srv : Server) (n p : String)
    (s : CouchResponse)
    (hp : Client.create_path c (Client.build_dbname c n) none = .ok p)
    (hs : CouchResponse.fromJson (srv ⟨Method.put, p⟩).body = some s)
    (hok : s.ok ≠ some true) :
    (Client.make_db c srv n).1 = .error (.sofa (s.error.getD "unspecified error")) := by
  simp only [Client.make_db, hp, hs]

/-- Witness for claim C2 (amended) at the spec's simulated response
{"ok": false, "reason": "file_exists"}. -/
theorem claim2_make_db_error_field_witness :
    Client.create_path c0 (Client.build_dbname c0 "x") none = .ok "http://h/x" ∧
    CouchResponse.fromJson
        (constSrv 412 (Json.obj [("ok", Json.bool false), ("reason", Json.str "file_exists")])
          ⟨Method.put, "http://h/x"⟩).body
      = some ⟨some false, none, some "file_exists"⟩ ∧
    (some false : Option Bool) ≠ some true ∧
    (Client.make_db c0
        (constSrv 412 (Json.obj [("ok", Json.bool false), ("reason", Json.str "file_exists")]))
        "x").1
      = .error (.sofa "unspecified error") :=
  ⟨rfl, rfl, by decide,
    claim2_make_db_error_field c0
      (constSrv 412 (Json.obj [("ok", Json.bool false), ("reason", Json.str "file_exists")]))
      "x" "http://h/x" ⟨some false, none, some "file_exists"⟩ rfl rfl (by decide)⟩

/-- Counterexample to claim C3 as stated: "not a uri" is not a parseable
absolute URI, yet `Client::new` succeeds (it performs no URI validation). -/
theorem claim3_counterexample :
    Url.parse "not a uri" = none ∧
    Client.new okBuilder "not a uri" = .ok cBad :=
  ⟨rfl, rfl⟩

/-- Claim C3 (amended): `Client::new` does not validate the base uri; it
stores it verbatim and fails only when the transport build fails.  An invalid
base uri surfaces later, as a URL parse error when a request path is built. -/
theorem claim3_new_no_validation (builder : Builder) (uri : String) :
    Client.new builder uri =
      Except.map
        (fun t => { _client := t, dbs := [], _gzip := true, _timeout := 4,
                    uri := uri, dbPrefix := "" })
        (builder true 4) ∧
    (∀ c2 p args, Url.parse uri = none → Client.new builder uri = .ok c2 →
      Client.create_path c2 p args = .error .urlParse) := by
  constructor
  · cases h : builder true 4 <;> simp [Client.new, h, Except.map]
  · intro c2 p args hparse hnew
    cases h : builder true 4 with
    | error e => simp [Client.new, h] at hnew
    | ok t =>
      simp only [Client.new, h] at hnew
      cases hnew with
      | refl => simp [Client.create_path, hparse]

/-- Witness for claim C3 (amended) at the unparseable uri "not a uri". -/
theorem claim3_new_no_validation_witness :
    Url.parse "not a uri" = none ∧
    Client.new okBuilder "not a uri" = .ok cBad ∧
    Client.create_path cBad "x" none = .error .urlParse :=
  ⟨rfl, rfl,
    (claim3_new_no_validation okBuilder "not a uri").2 cBad "x" none rfl rfl⟩

/-- Claim C4: `make_db` computes the effective name as the prefix concatenated
with the name, issues a PUT to that resource path, and when the decoded
envelope has ok == true returns a Database Handle for the effective name. -/
theorem claim4_make_db_ok (c : Client) (srv : Server) (n p : String)
    (s : CouchResponse)
    (hp : Client.create_path c (Client.build_dbname c n) none = .ok p)
    (hs : CouchResponse.fromJson (srv ⟨Method.put, p⟩).body = some s)
    (hok : s.ok = some true) :
    Client.build_dbname c n = c.dbPrefix ++ n ∧
    (Client.make_db c srv n).1 = .ok (Database.new (c.dbPrefix ++ n) c) ∧
    (Client.make_db c srv n).2 = [⟨Method.put, p⟩] := by
  refine ⟨rfl, ?_, make_db_trace c srv n p hp⟩
  simp only [Client.make_db, hp, hs, hok]
  rfl

/-- Witness for claim C4 at the spec's simulated response {"ok": true}. -/
theorem claim4_make_db_ok_witness :
    Client.create_path c0 (Client.build_dbname c0 "x") none = .ok "http://h/x" ∧
    CouchResponse.fromJson
        (constSrv 201 (Json.obj [("ok", Json.bool true)]) ⟨Method.put, "http://h/x"⟩).body
      = some ⟨some true, none, none⟩ ∧
    (Client.make_db c0 (constSrv 201 (Json.obj [("ok", Json.bool true)])) "x").1
      = .ok (Database.new (c0.dbPrefix ++ "x") c0) :=
  ⟨rfl, rfl,
    (claim4_make_db_ok c0 (constSrv 201 (Json.obj [("ok", Json.bool true)])) "x" "http://h/x"
      ⟨some true, none, none⟩ rfl rfl rfl).2.1⟩

/-- Claim C5: `destroy_db` returns the decoded envelope's ok value, defaulting
to false when absent; the HTTP status is never consulted, so a non-200 status
by itself is never an error (only a decode failure propagates): response {}
yields false and {"ok": true} yields true at every status. -/
theorem claim5_destroy_db (c : Client) (srv : Server) (n p : String)
    (hp : Client.create_path c (Client.build_dbname c n) none = .ok p) :
    ((Client.destroy_db c srv n).1 =
      match CouchResponse.fromJson (srv ⟨Method.delete, p⟩).body with
      | none => Except.error Err.decode
      | some s => Except.ok (s.ok.getD false)) ∧
    (∀ st1 st2 : Nat, ∀ b : Json,
      (Client.destroy_db c (constSrv st1 b) n).1 =
        (Client.destroy_db c (constSrv st2 b) n).1) ∧
    (∀ st : Nat,
      (Client.destroy_db c (constSrv st (Json.obj [])) n).1 = .ok false) ∧
    (∀ st : Nat,
      (Client.destroy_db c (constSrv st (Json.obj [("ok", Json.bool true)])) n).1 = .ok true) := by
  refine ⟨?_, fun st1 st2 b => ?_, fun st => ?_, fun st => ?_⟩ <;>
    simp only [Client.destroy_db, hp] <;> rfl

/-- Witness for claim C5: response {} at status 500 yields false, and
{"ok": true} at status 200 yields true. -/
theorem claim5_destroy_db_witness :
    Client.create_path c0 (Client.build_dbname c0 "x") none = .ok "http://h/x" ∧
    (Client.destroy_db c0 (constSrv 500 (Json.obj [])) "x").1 = .ok false ∧
    (Client.destroy_db c0 (constSrv 200 (Json.obj [("ok", Json.bool true)])) "x").1 = .ok true :=
  ⟨rfl,
    (claim5_destroy_db c0 (constSrv 500 (Json.obj [])) "x" "http://h/x" rfl).2.2.1 500,
    (claim5_destroy_db c0 (constSrv 500 (Json.obj [])) "x" "http://h/x" rfl).2.2.2 200⟩

/-- Counterexample to claim C6 as stated: the bases "http://h/x" and
"http://h/x/" differ only in a trailing slash, yet joining the same relative
path "b" yields different URIs, so the result is not independent of
trailing-slash variations. -/
theorem claim6_counterexample :
    cA.uri = "http://h/x" ∧ cB.uri = "http://h/x/" ∧
    Client.create_path cA "b" none = .ok "http://h/b" ∧
    Client.create_path cB "b" none = .ok "http://h/x/b" ∧
    ("http://h/b" : String) ≠ "http://h/x/b" :=
  ⟨rfl, rfl, rfl, rfl, by decide⟩

/-- Claim C6 (amended): `create_path` joins base and path by RFC 3986
relative resolution, so the result does depend on the base's trailing slash
and the path's leading slash: a path beginning with '/' replaces the base's
entire path (the result is then independent of the base path), while a path
not beginning with '/' is appended to the base path's directory — plain
concatenation exactly when the base path ends in '/'. -/
theorem claim6_create_path_rfc3986 (c : Client) (u : Url) (p : String)
    (hu : Url.parse c.uri = some u)
    (hq : splitAtFirst p.data '?' = none) :
    (p.data.head? = some '/' →
      Client.create_path c p none = .ok (u.scheme ++ "://" ++ u.host ++ p)) ∧
    (∀ q : String, u.path = q ++ "/" → p.data.head? ≠ some '/' → p ≠ "" →
      Client.create_path c p none = .ok (u.scheme ++ "://" ++ u.host ++ (u.path ++ p))) := by
  constructor
  · intro hhead
    have c1 : ¬ (p.data = []) := by
      intro h
      rw [h] at hhead
      exact Option.noConfusion hhead
    simp only [Client.create_path, hu, Url.join, hq]
    rw [if_neg c1, if_pos hhead]
    rfl
  · intro q hqs hns hne
    have hne2 : ¬ (p.data = []) := fun h => hne (String.ext h)
    simp only [Client.create_path, hu, Url.join, hq]
    rw [if_neg hne2, if_neg hns]
    have hupd : u.path.data = q.data ++ ['/'] := by rw [hqs]; rfl
    have key : String.mk (dirOfPath u.path.data ++ p.data) = u.path ++ p := by
      rw [hupd, dirOfPath_append_slash, ← hupd]
      rfl
    simp [Url.render, key]

/-- Witness for claim C6 (amended) at base "http://h/": a leading-slash path
replaces the base path, and a relative path is appended to the directory "/". -/
theorem claim6_create_path_rfc3986_witness :
    Url.parse c0.uri = some ⟨"http", "h", "/", none⟩ ∧
    splitAtFirst ("/_all_dbs").data '?' = none ∧
    Client.create_path c0 "/_all_dbs" none = .ok ("http" ++ "://" ++ "h" ++ "/_all_dbs") ∧
    Client.create_path c0 "b" none = .ok ("http" ++ "://" ++ "h" ++ ("/" ++ "b")) :=
  ⟨rfl, rfl,
    (claim6_create_path_rfc3986 c0 ⟨"http", "h", "/", none⟩ "/_all_dbs" rfl rfl).1 rfl,
    (claim6_create_path_rfc3986 c0 ⟨"http", "h", "/", none⟩ "b" rfl rfl).2 ""
      rfl (by decide) (by decide)⟩

/-- Claim C7: `set_uri` and `set_prefix` are pure mutations — they store the
provided value into the uri / db_prefix field with no I/O and no validation
(their embedding is a total function on the client), and leave every other
field unchanged. -/
theorem claim7_setters_pure (c : Client) (u p : String) :
    (Client.set_uri c u).uri = u ∧
    (Client.set_uri c u).dbPrefix = c.dbPrefix ∧
    (Client.set_uri c u)._gzip = c._gzip ∧
    (Client.set_uri c u)._timeout = c._timeout ∧
    (Client.set_uri c u)._client = c._client ∧
    (Client.set_uri c u).dbs = c.dbs ∧
    (Client.setPrefix c p).dbPrefix = p ∧
    (Client.setPrefix c p).uri = c.uri ∧
    (Client.setPrefix c p)._gzip = c._gzip ∧
    (Client.setPrefix c p)._timeout = c._timeout ∧
    (Client.setPrefix c p)._client = c._client ∧
    (Client.setPrefix c p).dbs = c.dbs :=
  ⟨rfl, rfl, rfl, rfl, rfl, rfl, rfl, rfl, rfl, rfl, rfl, rfl⟩

/-- Claim C8: `gzip` and `timeout` store the new setting and eagerly rebuild
the transport client from the current gzip flag and timeout, failing exactly
when the builder fails; a freshly constructed client has gzip true and
timeout 4. -/
theorem claim8_rebuild_defaults (builder : Builder) (c : Client) (b : Bool)
    (n : Nat) (uri : String) :
    Client.gzip builder c b =
      Except.map (fun t => { c with _gzip := b, _client := t }) (builder b c._timeout) ∧
    Client.timeout builder c n =
      Except.map (fun t => { c with _timeout := n, _client := t }) (builder c._gzip n) ∧
    Client.new builder uri =
      Except.map
        (fun t => { _client := t, dbs := [], _gzip := true, _timeout := 4,
                    uri := uri, dbPrefix := "" })
        (builder true 4) := by
  refine ⟨?_, ?_, ?_⟩
  · cases h : builder b c._timeout <;>
      simp [Client.gzip, Client.create_client, h, Except.map]
  · cases h : builder c._gzip n <;>
      simp [Client.timeout, Client.create_client, h, Except.map]
  · cases h : builder true 4 <;> simp [Client.new, h, Except.map]

/-- Claim C9: serializing then deserializing every resource model type yields
the original value, for every value — in particular both with all optional
fields populated and with all absent. -/
theorem claim9_roundtrip :
    (∀ v : CouchResponse, CouchResponse.fromJson (CouchResponse.toJson v) = some v) ∧
    (∀ v : CouchStatus, CouchStatus.fromJson (CouchStatus.toJson v) = some v) ∧
    (∀ v : CouchVendor, CouchVendor.fromJson (CouchVendor.toJson v) = some v) ∧
    (∀ v : DesignCreated, DesignCreated.fromJson (DesignCreated.toJson v) = some v) ∧
    (∀ v : Index, Index.fromJson (Index.toJson v) = some v) ∧
    (∀ v : IndexFields, IndexFields.fromJson (IndexFields.toJson v) = some v) ∧
    (∀ v : IndexCreated, IndexCreated.fromJson (IndexCreated.toJson v) = some v) ∧
    (∀ v : DatabaseIndexList, DatabaseIndexList.fromJson (DatabaseIndexList.toJson v) = some v) :=
  ⟨rt_CouchResponse, rt_CouchStatus, rt_CouchVendor, rt_DesignCreated,
    rt_Index, rt_IndexFields, rt_IndexCreated, rt_DatabaseIndexList⟩

/-- Claim C10: every request-issuing and request-building operation takes the
client by shared reference and leaves the client's configuration unchanged,
whether it succeeds or fails. -/
theorem claim10_shared_ref_frame (c : Client) (srv : Server) (op : ReqOp) :
    (Client.runReq c srv op).2 = c := by
  cases op <;> rfl
